import Mathlib

/-!
Shallow embedding of the `vec_storage_reuse` crate (src/src/lib.rs).

A Rust `Vec` is modelled as `RVec`: the list of live elements together with
the capacity of its backing allocation.  Machine layout of element types is
modelled by an explicit `Layout` (size and alignment in bytes), passed as a
value since Lean types carry no layout.  The external `recycle_vec` primitive
is modelled from the spec's contract (section 6); a panic is modelled as the
`Except.error` case.  Dropping of elements is made observable by returning
the list of elements whose destructors run.
-/

/-- Model of a Rust `Vec<α>`: its elements and the capacity of its backing
allocation (in numbers of elements). -/
structure RVec (α : Type) where
  data : List α
  cap : Nat
deriving Repr, DecidableEq

/-- `Vec::new()`: empty, zero capacity. -/
def RVec.new {α : Type} : RVec α := ⟨[], 0⟩

/-- `Vec::with_capacity(n)`: empty, capacity reserved for `n` elements. -/
def RVec.with_capacity {α : Type} (n : Nat) : RVec α := ⟨[], n⟩

/-- Size and alignment of an element type, in bytes. -/
structure Layout where
  size : Nat
  align : Nat
deriving Repr, DecidableEq

/-- The sole error kind: the working type's size or alignment does not match
the storage type's. -/
inductive RecycleError where
  | layoutMismatch
deriving Repr, DecidableEq

/-- Modelled from the spec: the raw recycle primitive of the external
`recycle_vec` crate (`recycle_vec::VecExt::recycle`), which is not part of
this repository.  Its contract (spec section 6): precondition
`size_of(To) == size_of(From) && align_of(To) == align_of(From)`, violation
being a fatal fault (modelled as `Except.error`); on success every element
of the input is dropped (the dropped elements are returned so drops are
observable) and the result is an empty vector of the target type with the
input's capacity, reusing the same allocation. -/
def recycle {F : Type} (To : Type) (lF lTo : Layout) (v : RVec F) :
    Except RecycleError (RVec To × List F) :=
  if lTo.size = lF.size ∧ lTo.align = lF.align then
    .ok (⟨[], v.cap⟩, v.data)
  else
    .error RecycleError.layoutMismatch

/-- The guard `VecStorageReuse<'a, T, S>` (src/src/lib.rs lines 61-64).
The Rust guard holds `storage: &'a mut Vec<S>`; in the embedding the value
behind that mutable reference — i.e. the holder's vector field for the
guard's whole lifetime — is carried explicitly as `storage`. -/
structure VecStorageReuse (T S : Type) where
  storage : RVec S
  inner : RVec T
deriving Repr, DecidableEq

/-- `VecStorageReuse::new` (src/src/lib.rs lines 73-78):
`mem::replace(storage, Vec::new())` takes the holder's vector out, leaving a
fresh `Vec::new()` behind the reference, and the taken vector is recycled
into the working `Vec<T>`.  Returns the guard together with the `S` elements
dropped by the recycle. -/
def VecStorageReuse.new {T S : Type} (lS lT : Layout) (storage : RVec S) :
    Except RecycleError (VecStorageReuse T S × List S) :=
  match recycle T lS lT storage with
  | .ok (v, dropped) => .ok ({ storage := RVec.new, inner := v }, dropped)
  | .error e => .error e

/-- `Drop for VecStorageReuse` (src/src/lib.rs lines 81-86):
`*self.storage = recycle(mem::replace(&mut self.inner, Vec::new()))`.
The working vector is recycled back to the storage type and written through
the reference, overwriting the placeholder.  Returns the holder's resulting
vector and the `T` elements dropped by the recycle. -/
def VecStorageReuse.drop {T S : Type} (lS lT : Layout) (g : VecStorageReuse T S) :
    Except RecycleError (RVec S × List T) :=
  match recycle S lT lS g.inner with
  | .ok (s, dropped) => .ok (s, dropped)
  | .error e => .error e

/-- `Deref for VecStorageReuse` (src/src/lib.rs lines 88-93): `&self.inner`. -/
def VecStorageReuse.deref {T S : Type} (g : VecStorageReuse T S) : RVec T :=
  g.inner

/-- `DerefMut for VecStorageReuse` (src/src/lib.rs lines 94-98): mutating
through `&mut self.inner` is modelled as applying an arbitrary vector
transformation `f` to the inner working vector. -/
def VecStorageReuse.deref_mut {T S : Type} (f : RVec T → RVec T)
    (g : VecStorageReuse T S) : VecStorageReuse T S :=
  { g with inner := f g.inner }

/-- The holder `VecStorageForReuse<S>` (src/src/lib.rs lines 103-105). -/
structure VecStorageForReuse (S : Type) where
  inner : RVec S
deriving Repr, DecidableEq

/-- `VecStorageForReuse::new` (src/src/lib.rs lines 108-110). -/
def VecStorageForReuse.new {S : Type} : VecStorageForReuse S :=
  { inner := RVec.new }

/-- `VecStorageForReuse::with_capacity` (src/src/lib.rs lines 112-116). -/
def VecStorageForReuse.with_capacity {S : Type} (capacity : Nat) :
    VecStorageForReuse S :=
  { inner := RVec.with_capacity capacity }

/-- `VecStorageForReuse::reuse_allocation` (src/src/lib.rs lines 121-123):
delegates to `VecStorageReuse::new` on `&mut self.inner`. -/
def VecStorageForReuse.reuse_allocation {T S : Type} (lS lT : Layout)
    (h : VecStorageForReuse S) : Except RecycleError (VecStorageReuse T S × List S) :=
  VecStorageReuse.new lS lT h.inner

/-- `VecStorageForReuse::from_vec` (src/src/lib.rs lines 125-129). -/
def VecStorageForReuse.from_vec {S : Type} (vec_to_use_as_storage : RVec S) :
    VecStorageForReuse S :=
  { inner := vec_to_use_as_storage }

/-- `VecStorageForReuse::into_inner` (src/src/lib.rs lines 131-133). -/
def VecStorageForReuse.into_inner {S : Type} (h : VecStorageForReuse S) : RVec S :=
  h.inner

/-- How a scope using the guard ends: normal fallthrough, an early return,
or a failure of type `E` propagating through the scope (unwinding). -/
inductive ExitKind (E : Type) where
  | fallthrough
  | earlyReturn
  | failure (e : E)
deriving Repr, DecidableEq

/-- One whole acquire/use/release cycle: acquire a guard from the holder,
run an arbitrary scope body — which mutates the working vector and decides
how the scope ends — and then run the guard's destructor unconditionally,
exactly once, whatever the exit kind (this is Rust's drop-on-scope-exit
semantics for the guard, including early return and unwinding).  Returns the
holder after the handoff together with the scope's exit kind. -/
def withReusedAllocation {T S E : Type} (lS lT : Layout)
    (h : VecStorageForReuse S) (body : RVec T → RVec T × ExitKind E) :
    Except RecycleError (VecStorageForReuse S × ExitKind E) :=
  match VecStorageForReuse.reuse_allocation lS lT h with
  | .error e => .error e
  | .ok (g, _droppedS) =>
    let r := body g.inner
    match VecStorageReuse.drop lS lT { g with inner := r.1 } with
    | .error e => .error e
    | .ok (s, _droppedT) => .ok ({ inner := s }, r.2)

/-- C1: for every guard created via `reuse_allocation`, whichever way the
scope ends (fallthrough, early return, or propagating failure), the drop
handoff runs exactly once and leaves the holder's vector empty with the
working vector's capacity at drop time — never half-swapped. -/
theorem handoff_on_every_exit_path {T S E : Type} (lS lT : Layout)
    (h : VecStorageForReuse S) (body : RVec T → RVec T × ExitKind E)
    (hsz : lT.size = lS.size) (hal : lT.align = lS.align) :
    withReusedAllocation lS lT h body =
      .ok ({ inner := ⟨[], (body ⟨[], h.inner.cap⟩).1.cap⟩ },
           (body ⟨[], h.inner.cap⟩).2) := by
  simp [withReusedAllocation, VecStorageForReuse.reuse_allocation,
    VecStorageReuse.new, VecStorageReuse.drop, recycle, hsz, hal]

/-- Witness for C1: a concrete cycle in which the body grows the working
vector and then fails; the holder still ends empty with the final capacity. -/
theorem handoff_on_every_exit_path_witness :
    withReusedAllocation (T := Nat) (S := Nat) (E := Unit) ⟨4, 4⟩ ⟨4, 4⟩
        { inner := ⟨[1, 2, 3], 5⟩ }
        (fun v => (⟨9 :: v.data, v.cap + 3⟩, ExitKind.failure ())) =
      .ok ({ inner := ⟨[], 8⟩ }, ExitKind.failure ()) :=
  handoff_on_every_exit_path ⟨4, 4⟩ ⟨4, 4⟩ _ _ rfl rfl

/-- C2: acquiring a guard from a holder whose vector holds `N` elements with
capacity `C` yields a working vector of length 0 and capacity `C`, and the
`N` prior `S` elements are exactly the ones dropped during acquisition. -/
theorem acquire_empties_and_drops_storage {T S : Type} (lS lT : Layout)
    (h : VecStorageForReuse S)
    (hsz : lT.size = lS.size) (hal : lT.align = lS.align) :
    VecStorageForReuse.reuse_allocation (T := T) lS lT h =
      .ok ({ storage := RVec.new, inner := ⟨[], h.inner.cap⟩ }, h.inner.data) := by
  simp [VecStorageForReuse.reuse_allocation, VecStorageReuse.new, recycle, hsz, hal]

/-- Witness for C2: acquiring from a holder with three elements and
capacity 7 drops exactly those three and yields an empty capacity-7 guard. -/
theorem acquire_empties_and_drops_storage_witness :
    VecStorageForReuse.reuse_allocation (T := Bool) (S := Nat) ⟨8, 8⟩ ⟨8, 8⟩
        { inner := ⟨[10, 20, 30], 7⟩ } =
      .ok ({ storage := RVec.new, inner := ⟨[], 7⟩ }, [10, 20, 30]) :=
  acquire_empties_and_drops_storage ⟨8, 8⟩ ⟨8, 8⟩ _ rfl rfl

/-- C3: acquiring a guard faults if and only if the working type's size or
alignment differs from the storage type's; the fault is reported at
guard-creation time (no guard value is produced), and with matching layout
acquisition never fails. -/
theorem acquire_faults_iff_layout_mismatch {T S : Type} (lS lT : Layout)
    (h : VecStorageForReuse S) :
    VecStorageForReuse.reuse_allocation (T := T) lS lT h =
        .error RecycleError.layoutMismatch ↔
      ¬(lT.size = lS.size ∧ lT.align = lS.align) := by
  by_cases hc : lT.size = lS.size ∧ lT.align = lS.align <;>
    simp [VecStorageForReuse.reuse_allocation, VecStorageReuse.new, recycle, hc]

/-- C4: allocation identity — the guard's working capacity at creation is
the holder's capacity before acquisition, and the holder's capacity after
the guard drops is the working vector's capacity at drop time. -/
theorem allocation_identity {T S : Type} (lS lT : Layout)
    (h : VecStorageForReuse S) (g : VecStorageReuse T S)
    (hsz : lT.size = lS.size) (hal : lT.align = lS.align) :
    Except.map (fun p => (Prod.fst p).inner.cap)
        (VecStorageForReuse.reuse_allocation (T := T) lS lT h) = .ok h.inner.cap ∧
    Except.map (fun p => (Prod.fst p).cap)
        (VecStorageReuse.drop lS lT g) = .ok g.inner.cap := by
  constructor <;>
    simp [VecStorageForReuse.reuse_allocation, VecStorageReuse.new,
      VecStorageReuse.drop, recycle, hsz, hal, Except.map]

/-- Witness for C4: a concrete acquisition from a capacity-6 holder and a
concrete drop of a guard whose working vector grew to capacity 11. -/
theorem allocation_identity_witness :
    Except.map (fun p => (Prod.fst p).inner.cap)
        (VecStorageForReuse.reuse_allocation (T := Nat) (S := Nat) ⟨2, 2⟩ ⟨2, 2⟩
          { inner := ⟨[5], 6⟩ }) = .ok 6 ∧
    Except.map (fun p => (Prod.fst p).cap)
        (VecStorageReuse.drop (T := Nat) (S := Nat) ⟨2, 2⟩ ⟨2, 2⟩
          { storage := RVec.new, inner := ⟨[1, 2, 3], 11⟩ }) = .ok 11 :=
  allocation_identity ⟨2, 2⟩ ⟨2, 2⟩ { inner := ⟨[5], 6⟩ }
    { storage := RVec.new, inner := ⟨[1, 2, 3], 11⟩ } rfl rfl

/-- C5: `into_inner` consumes the holder and returns its storage vector
exactly as stored — same elements, same length, same capacity. -/
theorem into_inner_returns_storage_exactly {S : Type} (h : VecStorageForReuse S) :
    VecStorageForReuse.into_inner h = h.inner ∧
    (VecStorageForReuse.into_inner h).data = h.inner.data ∧
    (VecStorageForReuse.into_inner h).data.length = h.inner.data.length ∧
    (VecStorageForReuse.into_inner h).cap = h.inner.cap :=
  ⟨rfl, rfl, rfl, rfl⟩

/-- C6: `VecStorageForReuse::new` yields a holder whose vector is empty with
zero capacity. -/
theorem new_holder_empty_zero_capacity (S : Type) :
    (VecStorageForReuse.new (S := S)).inner.data = [] ∧
    (VecStorageForReuse.new (S := S)).inner.cap = 0 :=
  ⟨rfl, rfl⟩

/-- C7: `VecStorageForReuse::with_capacity n` yields a holder whose vector
is empty with capacity at least `n`. -/
theorem with_capacity_holder_empty_reserved (S : Type) (n : Nat) :
    (VecStorageForReuse.with_capacity (S := S) n).inner.data = [] ∧
    n ≤ (VecStorageForReuse.with_capacity (S := S) n).inner.cap :=
  ⟨rfl, Nat.le_refl n⟩

/-- C8: `from_vec` takes ownership of an arbitrary vector as the holder's
storage, retaining every element, the length and the capacity as-is, and
they stay untouched until an acquisition: `into_inner` still returns the
very same vector. -/
theorem from_vec_retains_elements {S : Type} (v : RVec S) :
    (VecStorageForReuse.from_vec v).inner = v ∧
    (VecStorageForReuse.from_vec v).inner.data = v.data ∧
    (VecStorageForReuse.from_vec v).inner.cap = v.cap ∧
    VecStorageForReuse.into_inner (VecStorageForReuse.from_vec v) = v :=
  ⟨rfl, rfl, rfl, rfl⟩

/-- C9: while a guard is alive, the holder's vector field is the fresh
`Vec::new()` placeholder left by `mem::replace`: empty with zero capacity,
so the holder owns no part of the backing allocation during the guard's
lifetime. -/
theorem holder_holds_placeholder_while_guard_alive {T S : Type} (lS lT : Layout)
    (h : VecStorageForReuse S)
    (hsz : lT.size = lS.size) (hal : lT.align = lS.align) :
    ∃ g ds, VecStorageForReuse.reuse_allocation (T := T) lS lT h = .ok (g, ds) ∧
      g.storage.data = [] ∧ g.storage.cap = 0 := by
  refine ⟨{ storage := RVec.new, inner := ⟨[], h.inner.cap⟩ }, h.inner.data, ?_, rfl, rfl⟩
  simp [VecStorageForReuse.reuse_allocation, VecStorageReuse.new, recycle, hsz, hal]

/-- Witness for C9: after a concrete acquisition the holder's vector behind
the guard's reference is empty with zero capacity. -/
theorem holder_holds_placeholder_while_guard_alive_witness :
    ∃ (g : VecStorageReuse Nat Nat) (ds : List Nat),
      VecStorageForReuse.reuse_allocation (T := Nat) (S := Nat) ⟨1, 1⟩ ⟨1, 1⟩
          { inner := ⟨[7, 8], 4⟩ } = .ok (g, ds) ∧
        g.storage.data = [] ∧ g.storage.cap = 0 :=
  holder_holds_placeholder_while_guard_alive ⟨1, 1⟩ ⟨1, 1⟩ { inner := ⟨[7, 8], 4⟩ } rfl rfl

/-- C10: `Deref` and `DerefMut` expose the same inner working vector:
reading through `deref` returns the inner vector unchanged, and any mutation
performed through `deref_mut` is immediately observable through `deref`
(with the rest of the guard, in particular the holder reference, untouched);
the identity mutation leaves the guard exactly as it was — no indirection or
copying is added. -/
theorem deref_deref_mut_coherent {T S : Type} (g : VecStorageReuse T S)
    (f : RVec T → RVec T) :
    VecStorageReuse.deref g = g.inner ∧
    VecStorageReuse.deref (VecStorageReuse.deref_mut f g) =
      f (VecStorageReuse.deref g) ∧
    (VecStorageReuse.deref_mut f g).storage = g.storage ∧
    VecStorageReuse.deref_mut id g = g :=
  ⟨rfl, rfl, rfl, rfl⟩
